import Mathlib

/-!
Verification of the ingestion-indexing-analysis pipeline of
`finance_data_system_elastic.py`.

The Python source is shallowly embedded: pure helpers become Lean functions
on `String`/`List`/`ℚ`; calls into external collaborators (the Elasticsearch
transport, the HTTP page fetcher, Python's builtin `float`) become explicit
oracle parameters (`Except`-valued where the collaborator can raise); Python
`try/except` blocks become `match` on those `Except` values, so that a caught
exception is visibly swallowed in the model.  Machine floats that appear in
the source (`1.5`, `round(x, 2)`) are modelled over `ℚ`; the comparisons and
roundings involved are exact on the integer counts the source feeds them.
-/

namespace FinanceModel

/-- Python's substring test `sub in s`, as containment of the character
sequence of `sub` in the character sequence of `s`. -/
def strIn (sub s : String) : Bool := decide (sub.data <:+: s.data)

/-! ## DataCrawler._extract_tags (source lines 313-316) -/

/-- The fixed tag vocabulary of `_extract_tags`. -/
def tagKeywords : List String :=
  ["涨停", "跌停", "利好", "利空", "重组", "并购", "业绩", "财报"]

/-- `_extract_tags`: `[kw for kw in keywords if kw in content]`. -/
def extract_tags (content : String) : List String :=
  tagKeywords.filter (fun kw => strIn kw content)

/-! ## DataAnalyzer sentiment helpers (source lines 457-514) -/

/-- A stored news document as the analyzer sees it: a Python dict that may or
may not carry a `content` key; `item.get('content', '')` is `content.getD ""`. -/
structure NewsItem where
  content : Option String
deriving DecidableEq, Repr

/-- Positive keyword list of `_analyze_market_sentiment` (line 462). -/
def sentimentPositiveKeywords : List String := ["利好", "上涨", "突破", "创新高"]

/-- Negative keyword list of `_analyze_market_sentiment` (line 463). -/
def sentimentNegativeKeywords : List String := ["利空", "下跌", "破位", "创新低"]

/-- `sum(1 for item in data if any(kw in item.get('content','') for kw in kws))`. -/
def countMatching (data : List NewsItem) (kws : List String) : Nat :=
  data.countP (fun item => kws.any (fun kw => strIn kw (item.content.getD "")))

/-- `_analyze_market_sentiment` (lines 457-479).  The Python comparison
`positive_count > negative_count * 1.5` is between an int and the exact
binary float `1.5 * n`; over the int counts involved it coincides with the
rational comparison used here. -/
def analyze_market_sentiment (data : List NewsItem) : String :=
  if data = [] then "市场情绪中性，建议观望"
  else if (countMatching data sentimentPositiveKeywords : ℚ) >
      (countMatching data sentimentNegativeKeywords : ℚ) * 1.5 then "市场情绪偏多，建议适度参与"
  else if (countMatching data sentimentNegativeKeywords : ℚ) >
      (countMatching data sentimentPositiveKeywords : ℚ) * 1.5 then "市场情绪偏空，建议谨慎操作"
  else "市场情绪中性，建议观望"

/-- The keyword dict of `_calculate_sentiment_ratio` together with its
`keywords.get(sentiment, [])` access (lines 496-503). -/
def ratioKeywords (sentiment : String) : List String :=
  if sentiment = "positive" then ["利好", "上涨", "突破"]
  else if sentiment = "negative" then ["利空", "下跌", "破位"]
  else []

/-- Round half to even at integer precision: the model of Python's builtin
`round` on a rational value.  Python rounds the nearest binary double; on
the count-over-length values the source feeds it the two agree away from
exact `.5` ties, and at such a tie both round to even. -/
def roundHalfEven (q : ℚ) : ℤ :=
  if Int.fract q < 1 / 2 then ⌊q⌋
  else if 1 / 2 < Int.fract q then ⌊q⌋ + 1
  else if Even ⌊q⌋ then ⌊q⌋ else ⌊q⌋ + 1

/-- Python's `round(x, 2)`. -/
def round2 (q : ℚ) : ℚ := (roundHalfEven (q * 100) : ℚ) / 100

/-- `_calculate_sentiment_ratio` (lines 491-506):
`0.0` on empty data, else `round(count / len(data), 2)`. -/
def calculate_sentiment_ratio (data : List NewsItem) (sentiment : String) : ℚ :=
  if data = [] then 0
  else round2 ((countMatching data (ratioKeywords sentiment) : ℚ) / (data.length : ℚ))

/-! ## Concrete sample inputs used by the claims -/

/-- A news list with `p` items matching only positive keywords and `n`
matching only negative ones. -/
def sampleNews (p n : Nat) : List NewsItem :=
  List.replicate p ⟨some "利好"⟩ ++ List.replicate n ⟨some "利空"⟩

/-- 23 news items of which exactly 7 contain a positive keyword. -/
def sample23 : List NewsItem :=
  List.replicate 7 ⟨some "利好"⟩ ++ List.replicate 16 ⟨some "平稳"⟩

/-! ## ElasticsearchClient.bulk_insert (source lines 140-159)

`bulkApi` models the external `helpers.bulk(es, actions, raise_on_error=False)`
call: it either returns the pair (success count, error list) or raises a
transport-level exception. -/

/-- `bulk_insert`.  The first component is the Python return value: `none`
models the bare `return` (`None`) of the empty-document early exit at
line 143, `some (success, failedCount)` the pair otherwise — on the success
path the source returns the error list and its callers and log line use its
length, recorded here as the count; on the exception path the source
returns `(0, len(documents))` (line 159).  The second component counts how
many transport calls were performed. -/
def bulk_insert (bulkApi : List α → Except String (Nat × List String))
    (documents : List α) : Option (Nat × Nat) × Nat :=
  match documents with
  | [] => (none, 0)
  | _ :: _ =>
    match bulkApi documents with
    | .ok (success, failed) => (some (success, failed.length), 1)
    | .error _ => (some (0, documents.length), 1)

/-! ## ElasticsearchClient._create_indices (source lines 64-138)

The store state is the list of existing index names; `fail` is the oracle
deciding whether the store's create call raises for a given index. -/

/-- The five fixed index definitions of `_create_indices`, by name, in
iteration order (lines 66-128). -/
def indexNames : List String :=
  ["sina_live_data", "eastmoney_newstock_data", "eastmoney_industry_data",
   "analysis_results", "trading_strategies"]

/-- The body of one iteration of the `_create_indices` loop before its
`except` handler (lines 132-136): create the index if absent (a no-op when
it exists); the store's create call may raise. -/
def create_index_body (fail : String → Bool) (st : List String) (name : String) :
    Except String (List String) :=
  if name ∈ st then .ok st
  else if fail name then .error ("创建索引 " ++ name ++ " 失败")
  else .ok (st ++ [name])

/-- One loop iteration with its `try/except` (lines 130-138): an error is
logged and swallowed, leaving the store state unchanged. -/
def create_index_step (fail : String → Bool) (st : List String) (name : String) :
    List String :=
  match create_index_body fail st name with
  | .ok st2 => st2
  | .error _ => st

/-- `_create_indices`: iterate the creation step over the five fixed
index definitions. -/
def create_indices (fail : String → Bool) (st : List String) : List String :=
  indexNames.foldl (create_index_step fail) st

/-! ## DataCrawler adapters (source lines 179-262) -/

/-- A document written to `sina_live_data` (lines 197-204). -/
structure SinaDoc where
  content : String
  publish_time : String
  source : String
  author : String
  create_time : String
  tags : List String
deriving DecidableEq, Repr

/-- One scraped `.bd_i` element, as the two
`select_one(...).get_text(strip=True)` extractions of lines 194-195, each of
which can raise (a missing sub-element makes `select_one` return `None`). -/
structure RawSinaItem where
  contentE : Except String String
  timeE : Except String String
deriving Repr

/-- The body of the per-item loop of `crawl_sina_live` (lines 192-208):
both extractions must succeed (the time string is extracted but not
stored); a raised error is caught, logged, and the item skipped. -/
def parseSinaItem (now : String) (item : RawSinaItem) : Option SinaDoc :=
  match item.contentE, item.timeE with
  | .ok content, .ok _ => some
      { content := content, publish_time := now, source := "sina_finance",
        author := "新浪财经", create_time := now, tags := extract_tags content }
  | _, _ => none

/-- The `if data_list: bulk_insert(...)` guard shared by the adapters
(lines 210-211 and 254-255): a bulk write is issued only for a non-empty
document list; each performed call is recorded as (index name, count). -/
def maybeBulkCall (index : String) (docs : List β) : List (String × Nat) :=
  if docs.isEmpty then [] else [(index, docs.length)]

/-- `crawl_sina_live` (lines 179-218).  `fetch` models the page fetch plus
`soup.select('.bd_i')`; a raised fetch error is caught by the outer
`except` (line 216) and yields an empty result.  `now` models
`datetime.now().isoformat()`.  Returns the parsed documents together with
the list of bulk-write calls performed. -/
def crawl_sina_live (fetch : Except String (List RawSinaItem)) (now : String) :
    List SinaDoc × List (String × Nat) :=
  match fetch with
  | .error _ => ([], [])
  | .ok items =>
    ((items.take 20).filterMap (parseSinaItem now),
     maybeBulkCall "sina_live_data" ((items.take 20).filterMap (parseSinaItem now)))

/-! ## DataCrawler._parse_float (source lines 306-311) and the
listings adapter (lines 220-262) -/

/-- Longest digit prefix of a character list, and the rest. -/
def takeDigits (cs : List Char) : List Char × List Char :=
  (cs.takeWhile Char.isDigit, cs.dropWhile Char.isDigit)

/-- Value of a digit string. -/
def digitsToNat (ds : List Char) : Nat :=
  ds.foldl (fun a c => a * 10 + (c.toNat - 48)) 0

/-- Unsigned part of the `pyFloat` grammar: integer digits with an optional
fractional part, at least one digit overall. -/
def pyFloatCore (cs : List Char) : Option ℚ :=
  match takeDigits cs with
  | (ip, rest) =>
    match rest with
    | [] => if ip = [] then none else some (digitsToNat ip)
    | '.' :: rest2 =>
      match takeDigits rest2 with
      | (fp, rest3) =>
        if rest3 = [] then
          if ip = [] ∧ fp = [] then none
          else some ((digitsToNat ip : ℚ) + (digitsToNat fp : ℚ) / 10 ^ fp.length)
        else none
    | _ => none

/-- Model of Python's builtin `float()` on plain decimal notation: an
optional sign, integer digits, an optional fractional part.  `none` models
a raised `ValueError`.  Exponent notation, `inf`/`nan` and surrounding
whitespace — which never reach `_parse_float` from the stripped scraped
table cells — are modelled as parse failures. -/
def pyFloat (cs : List Char) : Option ℚ :=
  match cs with
  | '+' :: rest => pyFloatCore rest
  | '-' :: rest => (pyFloatCore rest).map (fun q => -q)
  | _ => pyFloatCore cs

/-- `value.replace(',', '').replace('%', '')` (line 309): replacing a
one-character pattern by the empty string deletes every occurrence of that
character, i.e. filters it out of the character sequence. -/
def stripSeparators (value : String) : List Char :=
  value.data.filter (fun c => !(c == ',') && !(c == '%'))

/-- `_parse_float` (lines 306-311): strip `,` and `%`, call `float`, and
return `0.0` when the parse raises (the bare `except` arm). -/
def parse_float (value : String) : ℚ :=
  (pyFloat (stripSeparators value)).getD 0

/-- A document written to `eastmoney_newstock_data` (lines 239-248). -/
structure StockDoc where
  stock_code : String
  stock_name : String
  issue_price : ℚ
  issue_date : String
  listing_date : String
  pe_ratio : ℚ
  industry : String
  create_time : String
deriving DecidableEq, Repr

/-- The body of the per-row loop of `crawl_eastmoney_newstock`
(lines 233-252): a scraped row is the list of its column texts; rows with
fewer than 6 columns are skipped (line 236), and column 6 falls back to the
empty string when absent (line 246). -/
def parseStockRow (now : String) (cols : List String) : Option StockDoc :=
  if cols.length < 6 then none
  else some
    { stock_code := cols.getD 0 ""
      stock_name := cols.getD 1 ""
      issue_price := parse_float (cols.getD 2 "")
      issue_date := cols.getD 3 ""
      listing_date := cols.getD 4 ""
      pe_ratio := parse_float (cols.getD 5 "")
      industry := if cols.length > 6 then cols.getD 6 "" else ""
      create_time := now }

/-- `crawl_eastmoney_newstock` (lines 220-262): take the first 10 scraped
rows, parse each (skipping short rows), and bulk-write once if anything
parsed; a raised fetch error is caught by the outer `except` (line 260)
and yields an empty result. -/
def crawl_eastmoney_newstock (fetch : Except String (List (List String)))
    (now : String) : List StockDoc × List (String × Nat) :=
  match fetch with
  | .error _ => ([], [])
  | .ok rows =>
    ((rows.take 10).filterMap (parseStockRow now),
     maybeBulkCall "eastmoney_newstock_data" ((rows.take 10).filterMap (parseStockRow now)))

/-! ## The execute-task endpoint (source lines 563-581) -/

/-- An HTTP response as `jsonify(...), code` produces it: the status code
(Flask's default 200 when none is given), the `success` flag, the optional
`data` payload and the optional `error` message. -/
structure TaskResponse (α : Type) where
  status : Nat
  success : Bool
  data : Option α
  error : Option String
deriving DecidableEq, Repr

/-- The keys of the task table of `execute_task` (lines 565-571). -/
def taskNames : List String :=
  ["pre_market", "opening_news", "dragon_tiger", "northbound", "closing"]

/-- `execute_task`.  `run` models the five analyzer routines behind the
task table: `run task_name` is what `tasks[task_name]()` does — it returns
an artifact or raises. -/
def execute_task (run : String → Except String α) (task_name : String) :
    TaskResponse α :=
  if task_name ∉ taskNames then
    { status := 400, success := false, data := none,
      error := some ("未知任务: " ++ task_name) }
  else
    match run task_name with
    | .ok result => { status := 200, success := true, data := some result, error := none }
    | .error e => { status := 500, success := false, data := none, error := some e }

/-! ## The scheduled-job registry (source lines 595-640) -/

/-- A scheduler registry entry, as registered by
`scheduler.add_job(func, trigger, id=..., name=...)`. -/
structure ScheduledJob where
  job_id : String
  trigger : String
  action : String
deriving DecidableEq, Repr

/-- Modelled from the spec: the Orchestrator's job registry lives in the
external scheduling library (`BackgroundScheduler`), not in this
repository's source — `_setup_scheduled_tasks` only issues `add_job`
calls.  The spec stipulates that job_id is unique within the registry and
that registering a duplicate id replaces the prior binding rather than
creating a second job. -/
def add_job (registry : List ScheduledJob) (job : ScheduledJob) : List ScheduledJob :=
  if registry.any (fun j => j.job_id = job.job_id) then
    registry.map (fun j => if j.job_id = job.job_id then job else j)
  else registry ++ [job]

/-- The six jobs `_setup_scheduled_tasks` registers, in order
(lines 598-638). -/
def setupJobs : List ScheduledJob :=
  [⟨"pre_market_strategy", "cron hour=8 minute=0", "generate_pre_market_strategy"⟩,
   ⟨"opening_news", "cron hour=9 minute=30", "analyze_opening_news"⟩,
   ⟨"dragon_tiger_list", "cron hour=10 minute=0", "analyze_dragon_tiger_list"⟩,
   ⟨"northbound_capital", "cron hour=11 minute=0", "analyze_northbound_capital"⟩,
   ⟨"closing_summary", "cron hour=15 minute=0", "analyze_closing_summary"⟩,
   ⟨"crawl_sina_hourly", "cron minute=0", "crawl_sina_live"⟩]

/-- `_setup_scheduled_tasks`: register the six fixed jobs into an empty
registry. -/
def setup_scheduled_tasks : List ScheduledJob := setupJobs.foldl add_job []

/-! ## The health endpoint (source lines 531-537) -/

/-- The health endpoint's response: `jsonify` with Flask's default HTTP
status 200. -/
structure HealthResponse where
  status_code : Nat
  status : String
  timestamp : String
  elasticsearch : String
deriving DecidableEq, Repr

/-- `health_check` (lines 531-537).  `ping` is the boolean result of
`es.ping()` (the client's ping returns a bool rather than raising). -/
def health_check (ping : Bool) (now : String) : HealthResponse :=
  { status_code := 200, status := "healthy", timestamp := now,
    elasticsearch := if ping then "connected" else "disconnected" }

/-! ## Helper lemmas about the schema-creation fold -/

theorem create_index_step_mem_of_mem (fail : String → Bool) (st : List String)
    (name n : String) (h : n ∈ st) : n ∈ create_index_step fail st name := by
  unfold create_index_step create_index_body
  split_ifs <;> simp [h]

theorem create_fold_mem_of_mem (fail : String → Bool) (names : List String)
    (st : List String) (n : String) (h : n ∈ st) :
    n ∈ names.foldl (create_index_step fail) st := by
  induction names generalizing st with
  | nil => exact h
  | cons a as ih => exact ih _ (create_index_step_mem_of_mem fail st a n h)

theorem create_index_step_self (fail : String → Bool) (st : List String)
    (name : String) (hf : fail name = false) :
    name ∈ create_index_step fail st name := by
  unfold create_index_step create_index_body
  split_ifs with h1 h2
  · exact h1
  · rw [hf] at h2; cases h2
  · simp

theorem create_fold_covers (fail : String → Bool) (names : List String)
    (st : List String) (n : String) (hn : n ∈ names) (hf : fail n = false) :
    n ∈ names.foldl (create_index_step fail) st := by
  induction names generalizing st with
  | nil => cases hn
  | cons a as ih =>
    rcases List.mem_cons.mp hn with h | h
    · subst h
      exact create_fold_mem_of_mem fail as _ n (create_index_step_self fail st n hf)
    · exact ih _ h

theorem create_index_step_fix (fail : String → Bool) (st : List String)
    (name : String) (h : name ∈ st ∨ fail name = true) :
    create_index_step fail st name = st := by
  unfold create_index_step create_index_body
  split_ifs with h1 h2
  · rfl
  · rfl
  · rcases h with h | h
    · exact absurd h h1
    · exact absurd h h2

theorem create_fold_fix (fail : String → Bool) (names : List String)
    (st : List String) (h : ∀ n ∈ names, n ∈ st ∨ fail n = true) :
    names.foldl (create_index_step fail) st = st := by
  induction names with
  | nil => rfl
  | cons a as ih =>
    rw [List.foldl_cons, create_index_step_fix fail st a (h a (by simp))]
    exact ih (fun n hn => h n (by simp [hn]))

theorem create_fold_invariant (fail : String → Bool) (names : List String)
    (st : List String) :
    ∀ n ∈ names, n ∈ names.foldl (create_index_step fail) st ∨ fail n = true := by
  intro n hn
  by_cases hf : fail n = true
  · right; exact hf
  · left; exact create_fold_covers fail names st n hn (by simpa using hf)

/-! ## Helper lemmas about half-to-even rounding -/

theorem roundHalfEven_nonneg (q : ℚ) (h : 0 ≤ q) : 0 ≤ roundHalfEven q := by
  have h0 : (0 : ℤ) ≤ ⌊q⌋ := Int.floor_nonneg.mpr h
  unfold roundHalfEven
  split_ifs <;> omega

theorem roundHalfEven_le_of_le (q : ℚ) (m : ℤ) (h : q ≤ (m : ℚ)) :
    roundHalfEven q ≤ m := by
  have hfl : ⌊q⌋ ≤ m := by
    have := Int.floor_le_floor h
    simpa using this
  have hkey : ¬ Int.fract q < 1 / 2 → ⌊q⌋ + 1 ≤ m := by
    intro hf
    rcases lt_or_eq_of_le hfl with h1 | h1
    · omega
    · exfalso
      have hq : q = (⌊q⌋ : ℚ) := by
        refine le_antisymm ?_ (Int.floor_le q)
        rw [h1]; exact h
      have hz : Int.fract q = 0 := by
        rw [Int.fract, sub_eq_zero]; exact hq
      rw [hz] at hf
      norm_num at hf
  unfold roundHalfEven
  split_ifs with hf1 hf2 hf3
  · exact hfl
  · exact hkey hf1
  · exact hfl
  · exact hkey hf1

/-! ## The claims -/

/-- C1, amended: for every bulk-write call with a non-empty document list
the returned pair satisfies successCount + failedCount = number of
documents attempted (given the transport's bulk contract); on a
transport-level failure the whole batch is reported as failed without the
error escaping the gateway; and a call with an empty document list
performs no network interaction — but it returns Python `None` (modelled
`none`), not the pair `(0, 0)` the original claim states.  Concrete
instances: the empty call, a transport failure on three documents, and a
partial failure of one document out of three. -/
theorem claim_C1_bulk_insert_accounting :
    (∀ (α : Type) (bulkApi : List α → Except String (Nat × List String)),
      bulk_insert bulkApi ([] : List α) = (none, 0)) ∧
    (∀ (α : Type) (bulkApi : List α → Except String (Nat × List String))
        (documents : List α),
      documents ≠ [] →
      (∀ r, bulkApi documents = .ok r → r.1 + r.2.length = documents.length) →
      ∃ s f, (bulk_insert bulkApi documents).1 = some (s, f) ∧
        s + f = documents.length ∧ (bulk_insert bulkApi documents).2 = 1) ∧
    (∀ (α : Type) (bulkApi : List α → Except String (Nat × List String))
        (documents : List α) (e : String),
      documents ≠ [] → bulkApi documents = .error e →
      (bulk_insert bulkApi documents).1 = some (0, documents.length)) ∧
    bulk_insert (fun _ : List Nat =>
      (.error "连接失败" : Except String (Nat × List String))) ([] : List Nat) = (none, 0) ∧
    (bulk_insert (fun _ : List Nat =>
      (.error "连接失败" : Except String (Nat × List String))) [1, 2, 3]).1 = some (0, 3) ∧
    (bulk_insert (fun _ : List Nat =>
      (.ok (2, ["doc1 拒绝"]) : Except String (Nat × List String))) [1, 2, 3]).1 =
      some (2, 1) := by
  refine ⟨?_, ?_, ?_, rfl, rfl, rfl⟩
  · intro α bulkApi; rfl
  · intro α bulkApi documents hne hcontract
    match documents, hne with
    | d :: ds, _ =>
      cases hres : bulkApi (d :: ds) with
      | ok r =>
        refine ⟨r.1, r.2.length, ?_, hcontract r hres, ?_⟩ <;>
          simp [bulk_insert, hres]
      | error e =>
        exact ⟨0, (d :: ds).length, by simp [bulk_insert, hres], by simp,
          by simp [bulk_insert, hres]⟩
  · intro α bulkApi documents e hne hres
    match documents, hne with
    | d :: ds, _ => simp [bulk_insert, hres]

/-- C1 counterexample: a bulk-write call with an empty document list does
not return the pair `(0, 0)` — the source's early exit is a bare `return`,
i.e. Python `None`. -/
theorem claim_C1_counterexample :
    (bulk_insert (fun _ : List Nat =>
      (.error "连接失败" : Except String (Nat × List String))) ([] : List Nat)).1 ≠
      some (0, 0) := by
  decide

/-- C2: running `_create_indices` twice in sequence leaves exactly the same
collections existing as running it once, for every creation-failure oracle
and every starting store state; from an empty store with no failures
exactly the five fixed collections exist; an error while creating one
collection is swallowed by the per-index `except` and does not prevent any
other collection from being created (concretely: failing on
`eastmoney_industry_data` still creates the other four). -/
theorem claim_C2_create_indices_idempotent :
    (∀ (fail : String → Bool) (st : List String),
      create_indices fail (create_indices fail st) = create_indices fail st) ∧
    create_indices (fun _ => false) [] = indexNames ∧
    (∀ (fail : String → Bool) (st : List String) (n : String),
      n ∈ indexNames → fail n = false → n ∈ create_indices fail st) ∧
    create_indices (fun n => n == "eastmoney_industry_data") [] =
      ["sina_live_data", "eastmoney_newstock_data", "analysis_results",
       "trading_strategies"] := by
  refine ⟨?_, by decide, ?_, by decide⟩
  · intro fail st
    exact create_fold_fix fail indexNames _ (create_fold_invariant fail indexNames st)
  · intro fail st n hn hf
    exact create_fold_covers fail indexNames st n hn hf

/-- C3: the pre-market sentiment label is bullish (偏多) exactly when
positive_count > 1.5 × negative_count, bearish (偏空) exactly when
negative_count > 1.5 × positive_count, and neutral (中性) otherwise, where
the counts count items whose content contains at least one keyword of the
respective list; concretely counts (10, 4) give bullish, (4, 10) give
bearish and (5, 4) give neutral. -/
theorem claim_C3_market_sentiment_label :
    (∀ data : List NewsItem,
      (analyze_market_sentiment data = "市场情绪偏多，建议适度参与" ↔
        (countMatching data sentimentNegativeKeywords : ℚ) * 1.5 <
          (countMatching data sentimentPositiveKeywords : ℚ)) ∧
      (analyze_market_sentiment data = "市场情绪偏空，建议谨慎操作" ↔
        (countMatching data sentimentPositiveKeywords : ℚ) * 1.5 <
          (countMatching data sentimentNegativeKeywords : ℚ)) ∧
      (analyze_market_sentiment data = "市场情绪中性，建议观望" ↔
        ¬ ((countMatching data sentimentNegativeKeywords : ℚ) * 1.5 <
            (countMatching data sentimentPositiveKeywords : ℚ)) ∧
          ¬ ((countMatching data sentimentPositiveKeywords : ℚ) * 1.5 <
            (countMatching data sentimentNegativeKeywords : ℚ)))) ∧
    analyze_market_sentiment (sampleNews 10 4) = "市场情绪偏多，建议适度参与" ∧
    analyze_market_sentiment (sampleNews 4 10) = "市场情绪偏空，建议谨慎操作" ∧
    analyze_market_sentiment (sampleNews 5 4) = "市场情绪中性，建议观望" := by
  refine ⟨?_, ?_, ?_, ?_⟩
  · intro data
    by_cases hd : data = []
    · subst hd
      refine ⟨?_, ?_, ?_⟩ <;>
        simp [analyze_market_sentiment, countMatching]
    · rw [analyze_market_sentiment, if_neg hd]
      split_ifs with h1 h2
      · refine ⟨by simp [gt_iff_lt] at h1 ⊢; exact h1, ?_, ?_⟩
        · constructor
          · intro h; exact absurd h (by decide)
          · intro h; exfalso; rw [gt_iff_lt] at h1; linarith
        · constructor
          · intro h; exact absurd h (by decide)
          · intro h; exact absurd (by rw [gt_iff_lt] at h1; exact h1) h.1
      · refine ⟨?_, ?_, ?_⟩
        · constructor
          · intro h; exact absurd h (by decide)
          · intro h; exact absurd h (by rw [gt_iff_lt] at h1; exact h1)
        · simp [gt_iff_lt] at h2 ⊢; exact h2
        · constructor
          · intro h; exact absurd h (by decide)
          · intro h; exact absurd (by rw [gt_iff_lt] at h2; exact h2) h.2
      · refine ⟨?_, ?_, ?_⟩
        · constructor
          · intro h; exact absurd h (by decide)
          · intro h; exact absurd h (by rw [gt_iff_lt] at h1; exact h1)
        · constructor
          · intro h; exact absurd h (by decide)
          · intro h; exact absurd h (by rw [gt_iff_lt] at h2; exact h2)
        · exact ⟨fun _ => ⟨by rw [gt_iff_lt] at h1; exact h1,
            by rw [gt_iff_lt] at h2; exact h2⟩, fun _ => rfl⟩
  · have h1 : countMatching (sampleNews 10 4) sentimentPositiveKeywords = 10 := by decide
    have h2 : countMatching (sampleNews 10 4) sentimentNegativeKeywords = 4 := by decide
    rw [analyze_market_sentiment, if_neg (by decide), h1, h2]
    norm_num
  · have h1 : countMatching (sampleNews 4 10) sentimentPositiveKeywords = 4 := by decide
    have h2 : countMatching (sampleNews 4 10) sentimentNegativeKeywords = 10 := by decide
    rw [analyze_market_sentiment, if_neg (by decide), h1, h2]
    norm_num
  · have h1 : countMatching (sampleNews 5 4) sentimentPositiveKeywords = 5 := by decide
    have h2 : countMatching (sampleNews 5 4) sentimentNegativeKeywords = 4 := by decide
    rw [analyze_market_sentiment, if_neg (by decide), h1, h2]
    norm_num

/-- C4: the opening-news sentiment ratio lies in [0, 1] for every
non-empty item list and every sentiment key, is exactly 0 for the empty
list (no division by zero), and on 23 items of which 7 match positive
keywords evaluates to 0.30 (two-decimal rounding of 7/23). -/
theorem claim_C4_sentiment_ratio :
    (∀ (data : List NewsItem) (sentiment : String), data ≠ [] →
      0 ≤ calculate_sentiment_ratio data sentiment ∧
        calculate_sentiment_ratio data sentiment ≤ 1) ∧
    (∀ sentiment : String, calculate_sentiment_ratio [] sentiment = 0) ∧
    calculate_sentiment_ratio sample23 "positive" = 3 / 10 := by
  refine ⟨?_, fun s => rfl, ?_⟩
  · intro data s hd
    have hc : countMatching data (ratioKeywords s) ≤ data.length :=
      List.countP_le_length _
    have hlen : 0 < data.length := List.length_pos.mpr hd
    have hlenQ : (0 : ℚ) < (data.length : ℚ) := by exact_mod_cast hlen
    have hq1 : (countMatching data (ratioKeywords s) : ℚ) / (data.length : ℚ) ≤ 1 := by
      rw [div_le_one hlenQ]
      exact_mod_cast hc
    rw [calculate_sentiment_ratio, if_neg hd, round2]
    constructor
    · apply div_nonneg _ (by norm_num : (0 : ℚ) ≤ 100)
      exact_mod_cast roundHalfEven_nonneg _ (by positivity)
    · rw [div_le_one (by norm_num : (0 : ℚ) < 100)]
      have h100 : roundHalfEven
          ((countMatching data (ratioKeywords s) : ℚ) / (data.length : ℚ) * 100) ≤
            (100 : ℤ) := by
        apply roundHalfEven_le_of_le
        push_cast
        nlinarith [hq1]
      exact_mod_cast h100
  · have hc : countMatching sample23 (ratioKeywords "positive") = 7 := by decide
    have hl : sample23.length = 23 := by decide
    rw [calculate_sentiment_ratio, if_neg (by decide), hc, hl, round2]
    push_cast
    have h1 : ((7 : ℚ) / 23 * 100) = 700 / 23 := by norm_num
    rw [h1]
    have h30 : roundHalfEven (700 / 23 : ℚ) = 30 := by
      have hfloor : ⌊(700 / 23 : ℚ)⌋ = 30 := by norm_num [Int.floor_eq_iff]
      rw [roundHalfEven, Int.fract, hfloor]
      norm_num
    rw [h30]
    norm_num

/-- C5: for both adapters a fetcher failure yields an empty result without
propagating; a crawl in which every item is malformed completes normally
with an empty result and no bulk-write call; and a single malformed item
(a raising extraction for the news adapter, a short row for the listings
adapter) is skipped without affecting the documents produced from the
remaining items.  Concretely: of three news items with a malformed second
one, two documents survive; a lone 5-column row yields no documents and no
write. -/
theorem claim_C5_adapter_isolation :
    (∀ (e : String) (now : String), crawl_sina_live (.error e) now = ([], [])) ∧
    (∀ (e : String) (now : String),
      crawl_eastmoney_newstock (.error e) now = ([], [])) ∧
    (∀ (items : List RawSinaItem) (now : String),
      (∀ i ∈ items, parseSinaItem now i = none) →
      crawl_sina_live (.ok items) now = ([], [])) ∧
    (∀ (rows : List (List String)) (now : String),
      (∀ r ∈ rows, parseStockRow now r = none) →
      crawl_eastmoney_newstock (.ok rows) now = ([], [])) ∧
    (∀ (pre post : List RawSinaItem) (bad : RawSinaItem) (now : String),
      (pre ++ bad :: post).length ≤ 20 → parseSinaItem now bad = none →
      (crawl_sina_live (.ok (pre ++ bad :: post)) now).1 =
        (crawl_sina_live (.ok (pre ++ post)) now).1) ∧
    (∀ (pre post : List (List String)) (bad : List String) (now : String),
      (pre ++ bad :: post).length ≤ 10 → bad.length < 6 →
      (crawl_eastmoney_newstock (.ok (pre ++ bad :: post)) now).1 =
        (crawl_eastmoney_newstock (.ok (pre ++ post)) now).1) ∧
    (crawl_sina_live (.ok
      [⟨.ok "利好消息", .ok "09:00"⟩, ⟨.error "缺少 .bd_i_txt_c", .ok "09:01"⟩,
       ⟨.ok "业绩大增", .ok "09:02"⟩]) "t0").1.length = 2 ∧
    crawl_eastmoney_newstock
      (.ok [["600001", "测试股", "12.5", "2024-01-01", "2024-01-02"]]) "t0" =
      ([], []) := by
  refine ⟨fun e now => rfl, fun e now => rfl, ?_, ?_, ?_, ?_, rfl, ?_⟩
  · intro items now h
    have hnil : (items.take 20).filterMap (parseSinaItem now) = [] :=
      List.filterMap_eq_nil_iff.mpr fun i hi => h i (List.mem_of_mem_take hi)
    simp [crawl_sina_live, hnil, maybeBulkCall]
  · intro rows now h
    have hnil : (rows.take 10).filterMap (parseStockRow now) = [] :=
      List.filterMap_eq_nil_iff.mpr fun r hr => h r (List.mem_of_mem_take hr)
    simp [crawl_eastmoney_newstock, hnil, maybeBulkCall]
  · intro pre post bad now hlen hbad
    have h1 : (pre ++ bad :: post).take 20 = pre ++ bad :: post :=
      List.take_of_length_le hlen
    have h2 : (pre ++ post).take 20 = pre ++ post := by
      refine List.take_of_length_le ?_
      simp only [List.length_append, List.length_cons] at hlen ⊢
      omega
    simp [crawl_sina_live, h1, h2, List.filterMap_append, List.filterMap_cons, hbad]
  · intro pre post bad now hlen hbad
    have hbadrow : parseStockRow now bad = none := by
      simp [parseStockRow, hbad]
    have h1 : (pre ++ bad :: post).take 10 = pre ++ bad :: post :=
      List.take_of_length_le hlen
    have h2 : (pre ++ post).take 10 = pre ++ post := by
      refine List.take_of_length_le ?_
      simp only [List.length_append, List.length_cons] at hlen ⊢
      omega
    simp [crawl_eastmoney_newstock, h1, h2, List.filterMap_append,
      List.filterMap_cons, hbadrow]
  · rfl

/-- C6: the execute-task endpoint answers any task name outside the fixed
five-name set with success false and HTTP 400; a known task whose routine
raises with success false and HTTP 500; and a known task whose routine
succeeds with success true and the routine's artifact as data.  Concrete
instances exercise the `closing` task succeeding and raising and an
unknown name `shutdown`. -/
theorem claim_C6_execute_task :
    (∀ (α : Type) (run : String → Except String α) (name : String),
      name ∉ taskNames →
      execute_task run name = ⟨400, false, none, some ("未知任务: " ++ name)⟩) ∧
    (∀ (α : Type) (run : String → Except String α) (name : String) (e : String),
      name ∈ taskNames → run name = .error e →
      execute_task run name = ⟨500, false, none, some e⟩) ∧
    (∀ (α : Type) (run : String → Except String α) (name : String) (a : α),
      name ∈ taskNames → run name = .ok a →
      execute_task run name = ⟨200, true, some a, none⟩) ∧
    (execute_task (fun _ => (.ok "收盘综述" : Except String String))
      "closing").success = true ∧
    (execute_task (fun _ => (.error "es 不可用" : Except String String))
      "closing").status = 500 ∧
    (execute_task (fun _ => (.ok "收盘综述" : Except String String))
      "shutdown").status = 400 ∧
    (execute_task (fun _ => (.ok "收盘综述" : Except String String))
      "shutdown").success = false := by
  refine ⟨?_, ?_, ?_, rfl, rfl, rfl, rfl⟩
  · intro α run name hname
    simp [execute_task, hname]
  · intro α run name e hname hrun
    simp [execute_task, hname, hrun]
  · intro α run name a hname hrun
    simp [execute_task, hname, hrun]

/-- C7: a scraped listings row with fewer than 6 columns is skipped
entirely; a row with at least 6 columns yields one document in which a
non-numeric price field becomes 0.0; and the float-parsing routine strips
thousands separators and percent signs and returns 0.0 on any parse
failure.  Concretely: "1,234.5" parses to 1234.5, "5.2%" to 5.2, the
non-numeric "转债" and "--" to 0.0, a 5-column row is dropped and a
6-column row with price "询价中" gets issue_price 0. -/
theorem claim_C7_parse_float_rows :
    (∀ (now : String) (cols : List String), cols.length < 6 →
      parseStockRow now cols = none) ∧
    (∀ (now : String) (cols : List String), 6 ≤ cols.length →
      pyFloat (stripSeparators (cols.getD 2 "")) = none →
      ∃ d, parseStockRow now cols = some d ∧ d.issue_price = 0) ∧
    (∀ s : String, pyFloat (stripSeparators s) = none → parse_float s = 0) ∧
    parse_float "1,234.5" = 2469 / 2 ∧
    parse_float "5.2%" = 26 / 5 ∧
    parse_float "转债" = 0 ∧
    parse_float "--" = 0 ∧
    parseStockRow "t0" ["600001", "测试股", "12.5", "2024-01-01", "2024-01-02"] =
      none ∧
    (∃ d, parseStockRow "t0"
        ["600001", "测试股", "询价中", "2024-01-01", "2024-01-02", "拟定"] = some d ∧
      d.issue_price = 0) := by
  refine ⟨?_, ?_, ?_, ?_, ?_, rfl, rfl, rfl, ?_⟩
  · intro now cols h
    simp [parseStockRow, h]
  · intro now cols hlen hfail
    rw [parseStockRow, if_neg (by omega)]
    refine ⟨_, rfl, ?_⟩
    show parse_float (cols.getD 2 "") = 0
    simp only [parse_float]
    rw [hfail]
    rfl
  · intro s h
    simp [parse_float, h]
  · have h : pyFloat (stripSeparators "1,234.5") =
        some (((1234 : Nat) : ℚ) + ((5 : Nat) : ℚ) / (10 : ℚ) ^ (1 : Nat)) := rfl
    rw [parse_float, h, Option.getD_some]
    norm_num
  · have h : pyFloat (stripSeparators "5.2%") =
        some (((5 : Nat) : ℚ) + ((2 : Nat) : ℚ) / (10 : ℚ) ^ (1 : Nat)) := rfl
    rw [parse_float, h, Option.getD_some]
    norm_num
  · exact ⟨_, rfl, rfl⟩

/-- C8: tag extraction returns exactly those keywords of the fixed
vocabulary that occur as substrings of the content, and on the content
"利好消息：某公司重组获批" it yields exactly 利好 and 重组. -/
theorem claim_C8_extract_tags :
    (∀ (content : String) (kw : String),
      kw ∈ extract_tags content ↔ kw ∈ tagKeywords ∧ kw.data <:+: content.data) ∧
    extract_tags "利好消息：某公司重组获批" = ["利好", "重组"] := by
  refine ⟨?_, by decide⟩
  intro content kw
  rw [extract_tags, List.mem_filter]
  constructor
  · rintro ⟨hmem, hdec⟩
    exact ⟨hmem, of_decide_eq_true hdec⟩
  · rintro ⟨hmem, hinf⟩
    exact ⟨hmem, decide_eq_true hinf⟩

/-- C9: registering a job whose job_id already exists in the registry
replaces the prior binding — the registry keeps the same length and the
same id sequence, and now contains the new job; the six jobs registered at
startup have pairwise distinct ids, and re-registering the existing
`opening_news` id leaves the registry at cardinality 6. -/
theorem claim_C9_add_job_replacement :
    (∀ (registry : List ScheduledJob) (job : ScheduledJob),
      job.job_id ∈ registry.map ScheduledJob.job_id →
      (add_job registry job).length = registry.length ∧
      (add_job registry job).map ScheduledJob.job_id =
        registry.map ScheduledJob.job_id ∧
      job ∈ add_job registry job) ∧
    setup_scheduled_tasks.length = 6 ∧
    (setup_scheduled_tasks.map ScheduledJob.job_id).Nodup ∧
    (add_job setup_scheduled_tasks
      ⟨"opening_news", "cron hour=10 minute=0", "analyze_opening_news"⟩).length =
      6 := by
  refine ⟨?_, by decide, by decide, by decide⟩
  intro registry job hmem
  obtain ⟨j, hj, hid⟩ := List.mem_map.mp hmem
  have hany : registry.any (fun j => decide (j.job_id = job.job_id)) = true :=
    List.any_eq_true.mpr ⟨j, hj, decide_eq_true hid⟩
  refine ⟨?_, ?_, ?_⟩
  · simp [add_job, hany]
  · rw [add_job, if_pos hany, List.map_map]
    refine List.map_congr_left ?_
    intro x hx
    by_cases hxid : x.job_id = job.job_id
    · simp [hxid]
    · simp [hxid]
  · rw [add_job, if_pos hany]
    exact List.mem_map.mpr ⟨j, hj, by simp [hid]⟩

/-- C10: the health endpoint always answers HTTP 200 with status
"healthy" whatever the store ping returns, and only its elasticsearch
field varies — "connected" exactly when the ping is true and
"disconnected" exactly when it is false. -/
theorem claim_C10_health_check :
    ∀ (ping : Bool) (now : String),
      (health_check ping now).status_code = 200 ∧
      (health_check ping now).status = "healthy" ∧
      ((health_check ping now).elasticsearch = "connected" ↔ ping = true) ∧
      ((health_check ping now).elasticsearch = "disconnected" ↔ ping = false) := by
  intro ping now
  cases ping <;>
    exact ⟨rfl, rfl, by simp [health_check], by simp [health_check]⟩

end FinanceModel
